import Mathlib

/-!
Verification of the Visual Assistant orchestration loop.

The source is a single React component (`src/App.tsx`) plus a Gemini service
module (`analyzeScene` / `fileToGenerativePart`).  We shallowly embed the
session state held in the component's refs and React state, and the pure
dimension computation of the frame sampler.  Asynchronous functions are split
at their `await` points into a synchronous prefix and a resumption, with the
outcome of the awaited call supplied as an explicit `Except` oracle.
-/

namespace VisualAssistant

/-- The observable session state of the `App` component: React state
(`isAssistantActive`, `statusMessage`, `error`) and the mutable refs
(`mediaStreamRef`, `videoRef.srcObject`, `processingIntervalRef`,
`isProcessingRef`, `isSpeakingRef`, the hidden canvas's dimensions).
`analyzeCalls`, `spokenTexts` and `synthCancels` instrument the externally
observable calls: invocations of `analyzeScene`, of
`window.speechSynthesis.speak`, and of `window.speechSynthesis.cancel`. -/
structure AppState where
  isAssistantActive : Bool
  statusMessage : String
  error : Option String
  hasMediaStream : Bool
  hasVideoSrc : Bool
  hasInterval : Bool
  isProcessing : Bool
  isSpeaking : Bool
  canvasWidth : Nat
  canvasHeight : Nat
  analyzeCalls : Nat
  spokenTexts : List String
  synthCancels : Nat
deriving DecidableEq, Repr

/-- Per-tick browser environment: whether `videoRef.current`,
`canvasRef.current` and `canvas.getContext` are non-null, and the current
`videoWidth` / `videoHeight` of the video element. -/
structure Env where
  hasVideo : Bool
  hasCanvas : Bool
  hasContext : Bool
  videoWidth : Nat
  videoHeight : Nat
deriving DecidableEq, Repr

/-- The frame sampler's target-dimension computation from `processFrame`
(`src/App.tsx` lines 115-131), with `MAX_DIMENSION = 480`.
JavaScript's `Math.round ((480 / long) * other)` is modelled exactly on
rationals: for a nonnegative rational `p / q`, `Math.round` is
`⌊p / q + 1 / 2⌋ = (2 * p + q) / (2 * q)` in natural floor division. -/
def computeTargetDims (videoWidth videoHeight : Nat) : Nat × Nat :=
  if videoHeight < videoWidth then
    if 480 < videoWidth then
      (480, (2 * (480 * videoHeight) + videoWidth) / (2 * videoWidth))
    else (videoWidth, videoHeight)
  else
    if 480 < videoHeight then
      ((2 * (480 * videoWidth) + videoHeight) / (2 * videoHeight), 480)
    else (videoWidth, videoHeight)

/-- Division bound used for both scaled branches of `computeTargetDims`:
the rounded short edge never exceeds 480 when the long edge exceeds 480. -/
theorem roundedShortEdge_le (lng oth : Nat) (hol : oth ≤ lng) (hl : 480 < lng) :
    (2 * (480 * oth) + lng) / (2 * lng) ≤ 480 := by
  set q := (2 * (480 * oth) + lng) / (2 * lng) with hq
  rcases Nat.lt_or_ge q 481 with hlt | hge
  · omega
  · exfalso
    have hmul : 481 * (2 * lng) ≤ q * (2 * lng) :=
      Nat.mul_le_mul_right (2 * lng) hge
    have hdiv : q * (2 * lng) ≤ 2 * (480 * oth) + lng := Nat.div_mul_le_self _ _
    have : 481 * (2 * lng) ≤ 2 * (480 * oth) + lng := le_trans hmul hdiv
    omega

/-- Division bound used for both scaled branches of `computeTargetDims`:
the rounded short edge is within half a pixel of the exact ratio, stated
as `2 * |q * lng - 480 * oth| ≤ lng`. -/
theorem roundedShortEdge_ratio (lng oth : Nat) (hl : 0 < lng) :
    2 * (((2 * (480 * oth) + lng) / (2 * lng) : Nat) * (lng : Int)
      - 480 * (oth : Int)).natAbs ≤ lng := by
  set q := (2 * (480 * oth) + lng) / (2 * lng) with hq
  have h2l : 0 < 2 * lng := by omega
  have hdm : 2 * lng * q + (2 * (480 * oth) + lng) % (2 * lng)
      = 2 * (480 * oth) + lng := Nat.div_add_mod _ _
  have hmod : (2 * (480 * oth) + lng) % (2 * lng) < 2 * lng :=
    Nat.mod_lt _ h2l
  set r := (2 * (480 * oth) + lng) % (2 * lng) with hr
  have hdmI : 2 * (lng : Int) * q + r = 2 * (480 * oth) + lng := by
    exact_mod_cast hdm
  have key : 2 * ((q : Int) * lng - 480 * oth) = (lng : Int) - r := by
    linear_combination hdmI
  have habs : (2 * ((q : Int) * lng - 480 * oth)).natAbs
      = 2 * ((q : Int) * lng - 480 * oth).natAbs := by
    simp [Int.natAbs_mul]
  rw [← habs, key]
  omega

/-- C2: the frame sampler's target dimensions have long edge at most 480,
preserve the aspect ratio within rounding (the cross products differ by at
most half the long edge), and equal the input exactly when its long edge is
at most 480. -/
theorem computeTargetDims_spec (w h : Nat) :
    max (computeTargetDims w h).1 (computeTargetDims w h).2 ≤ 480
    ∧ 2 * (((computeTargetDims w h).2 : Int) * w
        - ((computeTargetDims w h).1 : Int) * h).natAbs ≤ max w h
    ∧ (max w h ≤ 480 → computeTargetDims w h = (w, h)) := by
  by_cases hwh : h < w
  · by_cases hmax : 480 < w
    · have h1 : computeTargetDims w h = (480, (2 * (480 * h) + w) / (2 * w)) := by
        simp [computeTargetDims, hwh, hmax]
      rw [h1]
      refine ⟨?_, ?_, ?_⟩
      · have := roundedShortEdge_le w h (le_of_lt hwh) hmax
        simp only [max_le_iff]
        omega
      · have hb := roundedShortEdge_ratio w h (by omega)
        have hmx : max w h = w := Nat.max_eq_left (le_of_lt hwh)
        rw [hmx]
        exact hb
      · intro hc
        have : w ≤ 480 := le_trans (Nat.le_max_left w h) hc
        omega
    · have h1 : computeTargetDims w h = (w, h) := by
        simp [computeTargetDims, hwh, hmax]
      rw [h1]
      refine ⟨?_, ?_, fun _ => rfl⟩
      · have hw : w ≤ 480 := by omega
        simp only [max_le_iff]
        omega
      · have : ((h : Int) * w - (w : Int) * h) = 0 := by ring
        rw [this]
        simp
  · by_cases hmax : 480 < h
    · have h1 : computeTargetDims w h = ((2 * (480 * w) + h) / (2 * h), 480) := by
        simp [computeTargetDims, hwh, hmax]
      rw [h1]
      refine ⟨?_, ?_, ?_⟩
      · have := roundedShortEdge_le h w (by omega) hmax
        simp only [max_le_iff]
        omega
      · have hb := roundedShortEdge_ratio h w (by omega)
        have hmx : max w h = h := Nat.max_eq_right (by omega)
        rw [hmx]
        dsimp only
        have hgoal : (((480 : Nat) : Int)) * w - ((2 * (480 * w) + h) / (2 * h) : Nat) * h
            = -((((2 * (480 * w) + h) / (2 * h) : Nat) : Int) * h - 480 * w) := by
          push_cast
          ring
        rw [hgoal, Int.natAbs_neg]
        exact hb
      · intro hc
        have : h ≤ 480 := le_trans (Nat.le_max_right w h) hc
        omega
    · have h1 : computeTargetDims w h = (w, h) := by
        simp [computeTargetDims, hwh, hmax]
      rw [h1]
      refine ⟨?_, ?_, fun _ => rfl⟩
      · simp only [max_le_iff]
        omega
      · have : ((h : Int) * w - (w : Int) * h) = 0 := by ring
        rw [this]
        simp

/-- Witness for `computeTargetDims_spec` at concrete dimensions. -/
theorem computeTargetDims_spec_witness : computeTargetDims 320 240 = (320, 240) :=
  (computeTargetDims_spec 320 240).2.2 (by decide)

/-- Characters that JavaScript regex `.` does not match (line terminators). -/
def isLineTerminator (c : Char) : Bool :=
  c = '\n' || c = '\r' || c = '\u2028' || c = '\u2029'

/-- The eight characters of the literal `;base64,` in the service's regex. -/
def dataUrlSep : List Char := [';', 'b', 'a', 's', 'e', '6', '4', ',']

/-- Split points of `base64Data.match(/^data:(.+);base64,(.+)$/)` after the
`data:` prefix: indices `i` with a nonempty first group, the literal
`;base64,` at `i`, and a nonempty second group.  The greedy first group
corresponds to the largest such index. -/
def matchPositions (cs : List Char) : List Nat :=
  (List.range cs.length).filter fun i =>
    decide (0 < i ∧ (cs.drop i).take 8 = dataUrlSep ∧ i + 8 < cs.length)

/-- `fileToGenerativePart` from the Gemini service module: matches the input
against `/^data:(.+);base64,(.+)$/` and throws (`Except.error`) when the
match fails; on success the result models the `(mimeType, data)` groups of
the returned `inlineData` object.  JavaScript `.` excludes line terminators,
and the two greedy `(.+)` groups split at the last `;base64,` occurrence
that leaves both groups nonempty. -/
def fileToGenerativePart (base64Data : String) : Except String (String × String) :=
  let cs := base64Data.toList
  if cs.take 5 ≠ ['d', 'a', 't', 'a', ':'] then
    Except.error "Invalid base64 data URL format"
  else
    let rest := cs.drop 5
    if rest.any isLineTerminator then
      Except.error "Invalid base64 data URL format"
    else
      match (matchPositions rest).getLast? with
      | none => Except.error "Invalid base64 data URL format"
      | some i => Except.ok (String.mk (rest.take i), String.mk (rest.drop (i + 8)))

/-- The `try` block of `analyzeScene`: build the image part (which may
throw), perform the remote `generateContent` call (whose outcome is the
oracle `remote`: `Except.error` for a rejected call, `Except.ok none` for a
missing `response.text`, `Except.ok (some t)` for text `t`), then substitute
`"No clear view."` for falsy (missing or empty) text. -/
def analyzeSceneTry (base64ImageData : String)
    (remote : Except String (Option String)) : Except String String :=
  match fileToGenerativePart base64ImageData with
  | Except.error e => Except.error e
  | Except.ok _ =>
    match remote with
    | Except.error e => Except.error e
    | Except.ok text =>
      match text with
      | none => Except.ok "No clear view."
      | some t => if t = "" then Except.ok "No clear view." else Except.ok t

/-- `analyzeScene` from the Gemini service module: the `try` block wrapped in
the catch-all handler that returns `"Error analyzing."`.  The returned type
is `String`, not `Except`: the promise always resolves. -/
def analyzeScene (base64ImageData : String)
    (remote : Except String (Option String)) : String :=
  match analyzeSceneTry base64ImageData remote with
  | Except.ok t => t
  | Except.error _ => "Error analyzing."

/-- C9: `analyzeScene` is total at its public interface: for every input
string and every outcome of the remote call it resolves (it is a plain
function into `String`, every `throw` being caught), and the result is never
empty: it is `"No clear view."`, `"Error analyzing."`, or the remote call's
own nonempty text. -/
theorem analyzeScene_total (base64ImageData : String)
    (remote : Except String (Option String)) :
    analyzeScene base64ImageData remote ≠ ""
    ∧ (analyzeScene base64ImageData remote = "No clear view."
      ∨ analyzeScene base64ImageData remote = "Error analyzing."
      ∨ ∃ t, remote = Except.ok (some t) ∧ t ≠ ""
          ∧ analyzeScene base64ImageData remote = t) := by
  unfold analyzeScene analyzeSceneTry
  cases fileToGenerativePart base64ImageData with
  | error e => exact ⟨(by decide : "Error analyzing." ≠ ""), Or.inr (Or.inl rfl)⟩
  | ok p =>
    cases remote with
    | error e => exact ⟨(by decide : "Error analyzing." ≠ ""), Or.inr (Or.inl rfl)⟩
    | ok text =>
      cases text with
      | none => exact ⟨(by decide : "No clear view." ≠ ""), Or.inl rfl⟩
      | some t =>
        by_cases ht : t = ""
        · simp only [ht, if_pos rfl]
          exact ⟨(by decide : "No clear view." ≠ ""), Or.inl rfl⟩
        · simp only [if_neg ht]
          exact ⟨ht, Or.inr (Or.inr ⟨t, rfl, ht, rfl⟩)⟩

/-- C5: when the remote call succeeds but its response text is missing or
empty, `analyzeScene` hands onward exactly the fallback phrase
`"No clear view."`, never the empty string. -/
theorem analyzeScene_empty_fallback (base64ImageData : String)
    (text : Option String)
    (hok : ∃ p, fileToGenerativePart base64ImageData = Except.ok p)
    (htext : text = none ∨ text = some "") :
    analyzeScene base64ImageData (Except.ok text) = "No clear view."
    ∧ analyzeScene base64ImageData (Except.ok text) ≠ "" := by
  obtain ⟨p, hp⟩ := hok
  unfold analyzeScene analyzeSceneTry
  rw [hp]
  rcases htext with h | h <;> subst h <;>
    exact ⟨rfl, (by decide : "No clear view." ≠ "")⟩

/-- Witness for `analyzeScene_empty_fallback` on a concrete data URL with a
missing response text. -/
theorem analyzeScene_empty_fallback_witness :
    analyzeScene "data:image/jpeg;base64,AAAA" (Except.ok none) = "No clear view."
    ∧ analyzeScene "data:image/jpeg;base64,AAAA" (Except.ok none) ≠ "" :=
  analyzeScene_empty_fallback "data:image/jpeg;base64,AAAA" none
    ⟨("image/jpeg", "AAAA"), by rfl⟩ (Or.inl rfl)

/-- `speak` from `App.tsx`: cancels any current utterance
(`window.speechSynthesis.cancel()`), builds an utterance (voice selection
reads no session state), and hands it to `window.speechSynthesis.speak`.
The state records the cancel and the spoken text; the utterance's lifecycle
handlers are separate transitions below. -/
def speak (text : String) (s : AppState) : AppState :=
  { s with synthCancels := s.synthCancels + 1,
           spokenTexts := s.spokenTexts ++ [text] }

/-- The `utterance.onstart` handler installed by `speak`. -/
def utteranceOnStart (s : AppState) : AppState :=
  { s with isSpeaking := true, statusMessage := "Speaking..." }

/-- The `utterance.onend` handler installed by `speak`;
`activeAtCreation` is the `isAssistantActive` value captured by the
handler's closure. -/
def utteranceOnEnd (activeAtCreation : Bool) (s : AppState) : AppState :=
  { s with isSpeaking := false,
           statusMessage :=
             if activeAtCreation then "Listening..." else "Assistant stopped." }

/-- The `utterance.onerror` handler installed by `speak`. -/
def utteranceOnError (s : AppState) : AppState :=
  { s with isSpeaking := false, error := some "A speech error occurred." }

/-- `stopCamera` from `App.tsx`: stop all tracks and null the stream ref
when present, and null `videoRef.current.srcObject` when the video element
exists. -/
def stopCamera (env : Env) (s : AppState) : AppState :=
  let s1 := if s.hasMediaStream then { s with hasMediaStream := false } else s
  if env.hasVideo then { s1 with hasVideoSrc := false } else s1

/-- `startCamera` from `App.tsx`, with the outcome of
`navigator.mediaDevices.getUserMedia` supplied as `granted`.  A no-op when a
stream is already held; on success stores the stream and reaches
`"Listening..."`; on failure sets the error, speaks the fixed error
utterance, and clears `isAssistantActive`. -/
def startCamera (env : Env) (granted : Bool) (s : AppState) : AppState :=
  if s.hasMediaStream then s
  else
    let s1 := { s with statusMessage := "Starting camera..." }
    if granted then
      let s2 := { s1 with hasMediaStream := true }
      let s3 := if env.hasVideo then { s2 with hasVideoSrc := true } else s2
      { s3 with statusMessage := "Listening..." }
    else
      let s2 := { s1 with
        error := some "Could not access the camera. Please check permissions." }
      let s3 := speak "Error: Could not access the camera." s2
      { s3 with isAssistantActive := false }

/-- The synchronous prefix of `processFrame`, up to the `await` of
`analyzeScene`: the guard returns immediately when a previous analysis or an
utterance is in progress (or a ref is null); otherwise the in-progress flag
and status are set, the canvas takes the frame sampler's target dimensions,
and — when `getContext` yields a context — the frame is drawn, encoded and
handed to `analyzeScene` (recorded in `analyzeCalls`; the returned `Bool`
says whether such a call is now in flight).  When the context is null the
invocation completes at once and the `finally` clears the flag. -/
def processFrameSync (env : Env) (s : AppState) : AppState × Bool :=
  if s.isProcessing || s.isSpeaking || !env.hasVideo || !env.hasCanvas then
    (s, false)
  else
    let dims := computeTargetDims env.videoWidth env.videoHeight
    let s1 := { s with isProcessing := true,
                       statusMessage := "Analyzing scene...",
                       canvasWidth := dims.1, canvasHeight := dims.2 }
    if env.hasContext then
      ({ s1 with analyzeCalls := s1.analyzeCalls + 1 }, true)
    else
      ({ s1 with isProcessing := false }, false)

/-- The resumption of `processFrame` after the awaited `analyzeScene`
settles, applied to the state current at that moment: on resolution `speak`
the description; on rejection (the `catch` block) set the error and speak
the fixed error phrase; in both cases the `finally` clears the in-progress
flag. -/
def processFrameResume (outcome : Except String String) (s : AppState) : AppState :=
  let s1 :=
    match outcome with
    | Except.ok description => speak description s
    | Except.error msg =>
        speak "Error: Failed to process the scene."
          { s with error := some ("Failed to process frame: " ++ msg) }
  { s1 with isProcessing := false }

/-- One uninterleaved invocation of `processFrame`: the synchronous prefix
followed, when an analysis call went out, by its resumption with the given
outcome. -/
def processFrameRun (env : Env) (outcome : Except String String)
    (s : AppState) : AppState :=
  let step := processFrameSync env s
  if step.2 then processFrameResume outcome step.1 else step.1

/-- The teardown branch of the main effect in `App.tsx` (run when
`isAssistantActive` is false): stop the camera, clear the interval if one is
set, cancel speech synthesis, clear both flags and reset the status. -/
def stopEffect (env : Env) (s : AppState) : AppState :=
  let s1 := stopCamera env s
  let s2 := if s1.hasInterval then { s1 with hasInterval := false } else s1
  let s3 := { s2 with synthCancels := s2.synthCancels + 1 }
  { s3 with isProcessing := false, isSpeaking := false,
            statusMessage := "Tap screen to begin" }

/-- `handleToggleAssistant` from `App.tsx`: clear the error, speak
`"Starting assistant."` when currently inactive, and flip the active flag. -/
def handleToggleAssistant (s : AppState) : AppState :=
  let s1 := { s with error := none }
  if s.isAssistantActive then
    { s1 with isAssistantActive := false }
  else
    { speak "Starting assistant." s1 with isAssistantActive := true }

/-- The session-state components the specification calls observable: the
active flag, status message, error banner, camera stream and video source,
timer, and the speaking/processing flags. -/
def sessionObservables (s : AppState) :
    Bool × String × Option String × Bool × Bool × Bool × Bool × Bool :=
  (s.isAssistantActive, s.statusMessage, s.error, s.hasMediaStream,
   s.hasVideoSrc, s.hasInterval, s.isProcessing, s.isSpeaking)

/-- A session that is idle: inactive, default status, no camera stream, no
video source, no timer, no analysis or speech in progress. -/
def IsIdle (s : AppState) : Prop :=
  s.isAssistantActive = false ∧ s.statusMessage = "Tap screen to begin"
  ∧ s.hasMediaStream = false ∧ s.hasVideoSrc = false ∧ s.hasInterval = false
  ∧ s.isProcessing = false ∧ s.isSpeaking = false

/-- A listening, active session between ticks: active, stream held, timer
running, no analysis or speech in progress, nothing yet spoken or analyzed. -/
def readyActive : AppState :=
  { isAssistantActive := true, statusMessage := "Listening...", error := none,
    hasMediaStream := true, hasVideoSrc := true, hasInterval := true,
    isProcessing := false, isSpeaking := false, canvasWidth := 0,
    canvasHeight := 0, analyzeCalls := 0, spokenTexts := [], synthCancels := 0 }

/-- The idle session state reached after a stop. -/
def idleState : AppState :=
  { isAssistantActive := false, statusMessage := "Tap screen to begin",
    error := none, hasMediaStream := false, hasVideoSrc := false,
    hasInterval := false, isProcessing := false, isSpeaking := false,
    canvasWidth := 0, canvasHeight := 0, analyzeCalls := 0, spokenTexts := [],
    synthCancels := 0 }

/-- A browser environment with all refs present and a 640 by 480 frame. -/
def env0 : Env :=
  { hasVideo := true, hasCanvas := true, hasContext := true,
    videoWidth := 640, videoHeight := 480 }

/-- C1: a tick that fires while the in-progress or speaking flag is set
returns with the state untouched and no analyze call; consequently, of two
consecutive ticks the second of which fires while the first cycle is still
in flight, exactly one analyze call is issued. -/
theorem processFrame_tick_exclusion :
    (∀ (env : Env) (s : AppState),
      s.isProcessing = true ∨ s.isSpeaking = true →
      processFrameSync env s = (s, false))
    ∧ (∀ (env : Env) (s : AppState),
        s.isProcessing = false → s.isSpeaking = false → env.hasVideo = true →
        env.hasCanvas = true → env.hasContext = true →
        (processFrameSync env (processFrameSync env s).1).1
          = (processFrameSync env s).1
        ∧ (processFrameSync env (processFrameSync env s).1).1.analyzeCalls
          = s.analyzeCalls + 1) := by
  constructor
  · intro env s h
    rcases h with h | h <;> simp [processFrameSync, h]
  · intro env s h1 h2 h3 h4 h5
    constructor <;> simp [processFrameSync, h1, h2, h3, h4, h5]

/-- Witness for `processFrame_tick_exclusion`: a tick during speech is a
no-op, and two ticks over one in-flight cycle issue exactly one call. -/
theorem processFrame_tick_exclusion_witness :
    processFrameSync env0 (utteranceOnStart readyActive)
      = (utteranceOnStart readyActive, false)
    ∧ (processFrameSync env0 (processFrameSync env0 readyActive).1).1.analyzeCalls
      = readyActive.analyzeCalls + 1 :=
  ⟨processFrame_tick_exclusion.1 env0 (utteranceOnStart readyActive) (Or.inr rfl),
   (processFrame_tick_exclusion.2 env0 readyActive rfl rfl rfl rfl rfl).2⟩

/-- C10: every invocation of `processFrame` either ends with the
in-progress flag cleared (the `finally` block runs whether the body
returned normally or threw) or was the guard's early return, which leaves
the state — in particular the flag of the invocation that owns it —
entirely unchanged; a later tick is never blocked by a stale flag. -/
theorem processFrame_finally_clears_flag (env : Env)
    (outcome : Except String String) (s : AppState) :
    (processFrameRun env outcome s).isProcessing = false
    ∨ processFrameRun env outcome s = s := by
  by_cases h1 : (s.isProcessing || s.isSpeaking || !env.hasVideo || !env.hasCanvas) = true
  · right
    simp [processFrameRun, processFrameSync, h1]
  · by_cases h2 : env.hasContext = true
    · left
      cases outcome <;>
        simp [processFrameRun, processFrameSync, processFrameResume, speak, h1, h2]
    · left
      simp [processFrameRun, processFrameSync, h1, h2]

/-- C6: when camera acquisition fails, `startCamera` sets the visible
permission error, speaks the fixed error utterance, and clears the active
flag, forcing the session to idle. -/
theorem startCamera_failure (env : Env) (s : AppState)
    (hns : s.hasMediaStream = false) :
    (startCamera env false s).error
        = some "Could not access the camera. Please check permissions."
    ∧ (startCamera env false s).spokenTexts
        = s.spokenTexts ++ ["Error: Could not access the camera."]
    ∧ (startCamera env false s).isAssistantActive = false := by
  simp [startCamera, speak, hns]

/-- Witness for `startCamera_failure` from the idle state. -/
theorem startCamera_failure_witness :
    (startCamera env0 false idleState).error
        = some "Could not access the camera. Please check permissions."
    ∧ (startCamera env0 false idleState).spokenTexts
        = idleState.spokenTexts ++ ["Error: Could not access the camera."]
    ∧ (startCamera env0 false idleState).isAssistantActive = false :=
  startCamera_failure env0 idleState rfl

/-- C8: running the stop path on an already idle session changes none of
the observable session state: active flag, status message, error banner,
camera stream and video source, timer, speaking and processing flags. -/
theorem stop_idempotent (env : Env) (s : AppState) (h : IsIdle s) :
    sessionObservables (stopEffect env s) = sessionObservables s := by
  obtain ⟨h1, h2, h3, h4, h5, h6, h7⟩ := h
  by_cases hv : env.hasVideo = true <;>
    simp [stopEffect, stopCamera, sessionObservables, h1, h2, h3, h4, h5, h6, h7, hv]

/-- Witness for `stop_idempotent` at the concrete idle state. -/
theorem stop_idempotent_witness :
    sessionObservables (stopEffect env0 idleState)
      = sessionObservables idleState :=
  stop_idempotent env0 idleState ⟨rfl, rfl, rfl, rfl, rfl, rfl, rfl⟩

/-- A remote-analysis failure is swallowed inside `analyzeScene`: whatever
the input, a rejected `generateContent` call resolves to the fixed phrase
`"Error analyzing."`, never to a rejection seen by the caller. -/
theorem analyzeScene_remote_error (input e : String) :
    analyzeScene input (Except.error e) = "Error analyzing." := by
  unfold analyzeScene analyzeSceneTry
  cases fileToGenerativePart input <;> rfl

/-- C3 counterexample: start a cycle from a listening active session, stop
the session (toggle plus the effect's teardown) while the analysis is in
flight, then let the remote call resolve with `"Stop. Curb ahead."`.  After
the stop the session is inactive and nothing has been spoken, yet the
resumption still speaks the stale description: the result is not
discarded. -/
theorem stale_result_spoken_counterexample :
    (stopEffect env0
        (handleToggleAssistant (processFrameSync env0 readyActive).1)).isAssistantActive
      = false
    ∧ (stopEffect env0
        (handleToggleAssistant (processFrameSync env0 readyActive).1)).spokenTexts
      = []
    ∧ (processFrameResume (Except.ok "Stop. Curb ahead.")
        (stopEffect env0
          (handleToggleAssistant (processFrameSync env0 readyActive).1))).spokenTexts
      = ["Stop. Curb ahead."] := by
  decide

/-- C3 amended: the eventual result of an analysis call that outlives its
session is not discarded — `processFrame` has no active-session check after
its `await`, so the resumption still cancels current speech and speaks the
stale description even when the session has been stopped; the `finally`
then clears the in-progress flag. -/
theorem stale_result_spoken (s : AppState) (description : String)
    (_hstopped : s.isAssistantActive = false) :
    (processFrameResume (Except.ok description) s).spokenTexts
      = s.spokenTexts ++ [description]
    ∧ (processFrameResume (Except.ok description) s).synthCancels
      = s.synthCancels + 1
    ∧ (processFrameResume (Except.ok description) s).isProcessing = false := by
  simp [processFrameResume, speak]

/-- Witness for `stale_result_spoken` at the concrete idle state. -/
theorem stale_result_spoken_witness :
    (processFrameResume (Except.ok "Clear path.") idleState).spokenTexts
      = idleState.spokenTexts ++ ["Clear path."]
    ∧ (processFrameResume (Except.ok "Clear path.") idleState).synthCancels
      = idleState.synthCancels + 1
    ∧ (processFrameResume (Except.ok "Clear path.") idleState).isProcessing = false :=
  stale_result_spoken idleState "Clear path." rfl

/-- C4: a tick whose remote analysis fails leaves the active flag and the
periodic timer untouched, and once the resulting error utterance has
started and ended, the next scheduled tick issues another analyze call. -/
theorem remote_failure_keeps_session (env : Env) (s : AppState)
    (input e : String)
    (h1 : s.isProcessing = false) (h2 : s.isSpeaking = false)
    (h3 : env.hasVideo = true) (h4 : env.hasCanvas = true)
    (h5 : env.hasContext = true) :
    let s1 := processFrameRun env
      (Except.ok (analyzeScene input (Except.error e))) s
    let s2 := utteranceOnEnd s1.isAssistantActive (utteranceOnStart s1)
    s1.isAssistantActive = s.isAssistantActive
    ∧ s1.hasInterval = s.hasInterval
    ∧ (processFrameSync env s2).2 = true
    ∧ (processFrameSync env s2).1.analyzeCalls = s1.analyzeCalls + 1 := by
  intro s1 s2
  have hval : analyzeScene input (Except.error e) = "Error analyzing." :=
    analyzeScene_remote_error input e
  simp only [s1, s2, hval]
  refine ⟨?_, ?_, ?_, ?_⟩ <;>
    simp [processFrameRun, processFrameSync, processFrameResume, speak,
      utteranceOnStart, utteranceOnEnd, h1, h2, h3, h4, h5]

/-- Witness for `remote_failure_keeps_session` from the listening state. -/
theorem remote_failure_keeps_session_witness :
    let s1 := processFrameRun env0
      (Except.ok (analyzeScene "data:image/jpeg;base64,AAAA"
        (Except.error "network error"))) readyActive
    let s2 := utteranceOnEnd s1.isAssistantActive (utteranceOnStart s1)
    s1.isAssistantActive = readyActive.isAssistantActive
    ∧ s1.hasInterval = readyActive.hasInterval
    ∧ (processFrameSync env0 s2).2 = true
    ∧ (processFrameSync env0 s2).1.analyzeCalls = s1.analyzeCalls + 1 :=
  remote_failure_keeps_session env0 readyActive "data:image/jpeg;base64,AAAA"
    "network error" rfl rfl rfl rfl rfl

/-- C7 counterexample: a remote-analysis failure on a tick from a clean
listening session speaks the fixed phrase but leaves the visible error
state `none` — the failure is caught inside `analyzeScene`, so the `catch`
in `processFrame` that would call `setError` never runs for it. -/
theorem remote_error_invisible_counterexample :
    (processFrameRun env0
        (Except.ok (analyzeScene "data:image/jpeg;base64,AAAA"
          (Except.error "network error"))) readyActive).error = none
    ∧ (processFrameRun env0
        (Except.ok (analyzeScene "data:image/jpeg;base64,AAAA"
          (Except.error "network error"))) readyActive).spokenTexts
      = ["Error analyzing."] := by
  decide

/-- C7 amended: camera-acquisition errors surface both as a visible error
and as a spoken utterance, and speech-output errors surface as a visible
error; but a remote-analysis failure surfaces only as the spoken phrase
`"Error analyzing."` and leaves the visible error state unchanged. -/
theorem error_surfacing (env : Env) (s : AppState) (input e : String)
    (hns : s.hasMediaStream = false)
    (h1 : s.isProcessing = false) (h2 : s.isSpeaking = false)
    (h3 : env.hasVideo = true) (h4 : env.hasCanvas = true)
    (h5 : env.hasContext = true) :
    ((startCamera env false s).error
        = some "Could not access the camera. Please check permissions."
      ∧ (startCamera env false s).spokenTexts
        = s.spokenTexts ++ ["Error: Could not access the camera."])
    ∧ (utteranceOnError s).error = some "A speech error occurred."
    ∧ ((processFrameRun env
          (Except.ok (analyzeScene input (Except.error e))) s).error = s.error
      ∧ (processFrameRun env
          (Except.ok (analyzeScene input (Except.error e))) s).spokenTexts
        = s.spokenTexts ++ ["Error analyzing."]) := by
  have hval : analyzeScene input (Except.error e) = "Error analyzing." :=
    analyzeScene_remote_error input e
  refine ⟨⟨?_, ?_⟩, ?_, ?_, ?_⟩ <;>
    simp [startCamera, utteranceOnError, processFrameRun, processFrameSync,
      processFrameResume, speak, hval, hns, h1, h2, h3, h4, h5]

/-- Witness for `error_surfacing` at concrete inputs. -/
theorem error_surfacing_witness :
    ((startCamera env0 false idleState).error
        = some "Could not access the camera. Please check permissions."
      ∧ (startCamera env0 false idleState).spokenTexts
        = idleState.spokenTexts ++ ["Error: Could not access the camera."])
    ∧ (utteranceOnError idleState).error = some "A speech error occurred."
    ∧ ((processFrameRun env0
          (Except.ok (analyzeScene "data:a;base64,b" (Except.error "boom")))
          idleState).error = idleState.error
      ∧ (processFrameRun env0
          (Except.ok (analyzeScene "data:a;base64,b" (Except.error "boom")))
          idleState).spokenTexts
        = idleState.spokenTexts ++ ["Error analyzing."]) :=
  error_surfacing env0 idleState "data:a;base64,b" "boom" rfl rfl rfl rfl rfl rfl

end VisualAssistant
